import Mathlib

/-!
# Verification of liblaunchpad.h

A shallow embedding of the protocol codec and device-state layer of
`liblaunchpad.h` (a header-only C99 library controlling a Novation
Launchpad S over a raw MIDI byte transport), together with proofs of
the specified properties.

The ALSA transport (`snd_rawmidi_open/write/drain/read/close`) is an
external collaborator: it is modelled as a structure of oracles giving
the outcome of each transport call.  Unsigned char values are modelled
as `Nat` with explicit `% 256` where the C code stores into an
`unsigned char`; the C `int` field `current_buff` is modelled as `Int`.
Each `lp_*` function mirrors the control flow of the C implementation
line by line.
-/

namespace Launchpad

/-- Error codes, as in the `LP_*` defines of `liblaunchpad.h`. -/
def LP_OK : Int := 0
def LP_ERROR_LP_NULL : Int := -1
def LP_ERROR_OPENING_LAUNCHPAD : Int := -2
def LP_ERROR_UNINITIALIZED : Int := -3
def LP_ERROR_MIDI_WRITE : Int := -4
def LP_ERROR_MIDI_DRAIN : Int := -5
def LP_ERROR_MIDI_CLOSE : Int := -6
def LP_ERROR_ARGUMENT_NULL : Int := -7
def LP_ERROR_MIDI_READ : Int := -8

def LP_ROWS : Nat := 8
def LP_COLS : Nat := 8

/-- Note states (`LP_NOTE_ON`, `LP_NOTE_OFF`). -/
def LP_NOTE_ON : Nat := 0x90
def LP_NOTE_OFF : Nat := 0x80

/-- `#define LP_KEY(row, col) ((0x10 * row) + col)` -/
def LP_KEY (row col : Nat) : Nat := 0x10 * row + col

/-- `LP_COLOR_FLAG_CLEAR = (1<<2)` -/
def LP_COLOR_FLAG_CLEAR : Nat := 1 <<< 2
/-- `LP_COLOR_FLAG_COPY = (1<<3)` -/
def LP_COLOR_FLAG_COPY : Nat := 1 <<< 3

/-- Brightness levels (`LPNoteBrightness`). -/
def LP_BRIGHTNESS_OFF : Nat := 0
def LP_BRIGHTNESS_LOW : Nat := 1
def LP_BRIGHTNESS_MEDIUM : Nat := 2
def LP_BRIGHTNESS_FULL : Nat := 3

/-- `#define LP_COLOR(green, red, flags) ((0x10 * green) + red + flags)` -/
def LP_COLOR (green red flags : Nat) : Nat := 0x10 * green + red + flags

def LP_COLOR_RED_FULL : Nat := LP_COLOR LP_BRIGHTNESS_OFF LP_BRIGHTNESS_FULL 0
def LP_COLOR_GREEN_FULL : Nat := LP_COLOR LP_BRIGHTNESS_FULL LP_BRIGHTNESS_OFF 0

/-- An `LPNote`: state tag, device key, colour byte (all `unsigned char`). -/
structure LPNote where
  state : Nat
  key : Nat
  color : Nat
deriving Repr, DecidableEq

/-- Event types (`LPEventType`). -/
def LP_EVENT_PRESSED : Nat := 1
def LP_EVENT_RELEASED : Nat := 2
def LP_EVENT_AUTOMAP_PRESSED : Nat := 3
def LP_EVENT_AUTOMAP_RELEASED : Nat := 4

/-- An `LPEvent`. -/
structure LPEvent where
  type : Nat
  note_x : Nat
  note_y : Nat
deriving Repr, DecidableEq

/-- Double-buffering flags (`LPDoubleBufferingFlag` enum). -/
def LP_DOUBLE_BUFFERING_DISPLAY_0 : Nat := 0
def LP_DOUBLE_BUFFERING_DISPLAY_1 : Nat := 1
def LP_DOUBLE_BUFFERING_UPDATE_0 : Nat := 0
def LP_DOUBLE_BUFFERING_UPDATE_1 : Nat := 1 <<< 2
def LP_DOUBLE_BUFFERING_FLASH : Nat := 1 <<< 3
def LP_DOUBLE_BUFFERING_COPY : Nat := 1 <<< 4

/-- The `LP` session struct.  The two `snd_rawmidi_t*` handles are
modelled by whether they are non-null; `current_buff` is a C `int`. -/
structure LP where
  midi_in : Bool
  midi_out : Bool
  current_buff : Int
deriving Repr, DecidableEq

/-- Outcome of a call to `snd_rawmidi_read` into a 3-byte buffer:
would-block (`-EAGAIN`), some other negative error, or a successful
read of `bs.length ≤ 3` bytes with return value `bs.length`. -/
inductive ReadResult where
  | wouldBlock : ReadResult
  | readError : ReadResult
  | data : List Nat → ReadResult
deriving Repr, DecidableEq

/-- The external ALSA transport, as an oracle for each call the
library makes.  `write msg` is the value of the C variable
`bytes` (a `size_t`) after `snd_rawmidi_write`; `drain`, `closeIn`
and `closeOut` are the raw return codes; `openReturn` is the return
of `snd_rawmidi_open`; `read` the outcome of `snd_rawmidi_read`. -/
structure Transport where
  openReturn : Int
  write : List Nat → Nat
  drain : Int
  read : ReadResult
  closeIn : Int
  closeOut : Int

/-- A transport on which every call succeeds, reporting every write
as fully written. -/
def perfectTransport : Transport where
  openReturn := 0
  write := fun msg => msg.length
  drain := 0
  read := ReadResult.wouldBlock
  closeIn := 0
  closeOut := 0

/-- `lp_open`: null check, then `snd_rawmidi_open(&lp->midi_in,
&lp->midi_out, devicename, flags)`.  On success both handles are set;
no other field of `*lp` is written (in particular `current_buff` is
left exactly as it was). -/
def lp_open (t : Transport) (lp : Option LP) : Int × Option LP :=
  match lp with
  | none => (LP_ERROR_LP_NULL, none)
  | some s =>
    if t.openReturn < 0 then (LP_ERROR_OPENING_LAUNCHPAD, some s)
    else (LP_OK, some { s with midi_in := true, midi_out := true })

/-- `lp_close`: `if (!lp) return LP_OK;` then closes `midi_in` and,
only if that did not fail, `midi_out`.  The second component records
whether `snd_rawmidi_close(lp->midi_out)` was invoked. -/
def lp_close (t : Transport) (lp : Option LP) : Int × Bool :=
  match lp with
  | none => (LP_OK, false)
  | some s =>
    if s.midi_in && decide (t.closeIn < 0) then (LP_ERROR_MIDI_CLOSE, false)
    else if s.midi_out then
      if t.closeOut < 0 then (LP_ERROR_MIDI_CLOSE, true)
      else (LP_OK, true)
    else (LP_OK, false)

/-- The 3-byte message built by `lp_reset`. -/
def resetMsg : List Nat := [0xB0, 0, 0]

/-- Shared write-then-drain tail used by every output operation:
`if (bytes != n) return LP_ERROR_MIDI_WRITE; if (drain < 0) return
LP_ERROR_MIDI_DRAIN; return LP_OK;` -/
def writeDrain (t : Transport) (msg : List Nat) : Int :=
  if t.write msg ≠ msg.length then LP_ERROR_MIDI_WRITE
  else if t.drain < 0 then LP_ERROR_MIDI_DRAIN
  else LP_OK

/-- `lp_reset`. -/
def lp_reset (t : Transport) (lp : Option LP) : Int :=
  match lp with
  | none => LP_ERROR_LP_NULL
  | some s =>
    if !s.midi_out then LP_ERROR_UNINITIALIZED
    else writeDrain t resetMsg

/-- The 3-byte message `{ note.state, note.key, note.color }` built by
`lp_set_note` (stores into `unsigned char`, hence `% 256`). -/
def noteMsg (n : LPNote) : List Nat := [n.state % 256, n.key % 256, n.color % 256]

/-- `lp_set_note`. -/
def lp_set_note (t : Transport) (lp : Option LP) (note : LPNote) : Int :=
  match lp with
  | none => LP_ERROR_LP_NULL
  | some s =>
    if !s.midi_out then LP_ERROR_UNINITIALIZED
    else writeDrain t (noteMsg note)

/-- The 192-byte buffer built by the nested loops of `lp_set_notes`:
for each `i, j` in `[0,7]`, the 3 bytes of `notes[i*8+j]` are placed
at offset `3*(i*8+j)`. -/
def gridMsg (notes : List LPNote) : List Nat :=
  (List.range LP_ROWS).flatMap (fun i =>
    (List.range LP_COLS).flatMap (fun j =>
      noteMsg (notes.getD (i * LP_ROWS + j) ⟨0, 0, 0⟩)))

/-- `lp_set_notes`: null checks, build the 192-byte buffer, single
write, compare the reported count against `3 * LP_ROWS * LP_COLS`,
then drain.  `current_buff` is never touched, so the session value is
returned unchanged. -/
def lp_set_notes (t : Transport) (lp : Option LP) (notes : Option (List LPNote)) :
    Int × Option LP :=
  match lp with
  | none => (LP_ERROR_LP_NULL, none)
  | some s =>
    if !s.midi_out then (LP_ERROR_UNINITIALIZED, some s)
    else match notes with
      | none => (LP_ERROR_ARGUMENT_NULL, some s)
      | some ns =>
        if t.write (gridMsg ns) ≠ 3 * LP_ROWS * LP_COLS then
          (LP_ERROR_MIDI_WRITE, some s)
        else if t.drain < 0 then (LP_ERROR_MIDI_DRAIN, some s)
        else (LP_OK, some s)

/-- The buffer-control message `{ 0xB0, 0, flags + 0x20 }` built by
`lp_set_double_buffering_flags` (`flags` is `unsigned char`). -/
def bufferControlMsg (flags : Nat) : List Nat := [0xB0, 0, (flags % 256 + 0x20) % 256]

/-- `lp_set_double_buffering_flags`; the second component is the list
of messages handed to `snd_rawmidi_write`, in order. -/
def lp_set_double_buffering_flags (t : Transport) (lp : Option LP) (flags : Nat) :
    Int × List (List Nat) :=
  match lp with
  | none => (LP_ERROR_LP_NULL, [])
  | some s =>
    if !s.midi_out then (LP_ERROR_UNINITIALIZED, [])
    else (writeDrain t (bufferControlMsg flags), [bufferControlMsg flags])

/-- `lp_swap_buffers`: toggles `current_buff` (testing `== 0`), then
issues the buffer-control message through
`lp_set_double_buffering_flags`.  Returns the result code, the
messages written and the updated session. -/
def lp_swap_buffers (t : Transport) (lp : Option LP) :
    Int × List (List Nat) × Option LP :=
  match lp with
  | none => (LP_ERROR_LP_NULL, [], none)
  | some s =>
    if !s.midi_out then (LP_ERROR_UNINITIALIZED, [], some s)
    else if s.current_buff = 0 then
      let s' : LP := { s with current_buff := 1 }
      let r := lp_set_double_buffering_flags t (some s')
        (LP_DOUBLE_BUFFERING_DISPLAY_1 |||
         LP_DOUBLE_BUFFERING_UPDATE_0 |||
         LP_DOUBLE_BUFFERING_COPY)
      (r.1, r.2, some s')
    else
      let s' : LP := { s with current_buff := 0 }
      let r := lp_set_double_buffering_flags t (some s')
        (LP_DOUBLE_BUFFERING_DISPLAY_0 |||
         LP_DOUBLE_BUFFERING_UPDATE_1 |||
         LP_DOUBLE_BUFFERING_COPY)
      (r.1, r.2, some s')

/-- `lp_check_event`.  `event` is the out-parameter: `none` models a
null pointer, `some e` a pointer to a struct currently holding `e`.
Returns the C return value and the contents of `*event` afterwards.
Mirrors exactly: `-EAGAIN ⇒ 0`; other negative ⇒ `LP_ERROR_MIDI_READ`;
a 3-byte read decodes `0x90` and `0xB0` statuses into `*event` (when
`event` is non-null) and returns 1 unconditionally; shorter reads
return 0. -/
def lp_check_event (t : Transport) (lp : Option LP) (event : Option LPEvent) :
    Int × Option LPEvent :=
  match lp with
  | none => (LP_ERROR_LP_NULL, event)
  | some s =>
    if !s.midi_in then (LP_ERROR_UNINITIALIZED, event)
    else match t.read with
      | ReadResult.wouldBlock => (0, event)
      | ReadResult.readError => (LP_ERROR_MIDI_READ, event)
      | ReadResult.data bs =>
        if bs.length = 3 then
          let status := bs.getD 0 0 % 256
          let note := bs.getD 1 0 % 256
          let velocity := bs.getD 2 0 % 256
          match event with
          | none => (1, none)
          | some e =>
            if status = 0x90 then
              (1, some { type := if velocity > 0 then LP_EVENT_PRESSED
                                 else LP_EVENT_RELEASED,
                         note_x := (note - note / 16 * 16) % 9,
                         note_y := note / 16 })
            else if status = 0xB0 then
              (1, some { type := if velocity > 0 then LP_EVENT_AUTOMAP_PRESSED
                                 else LP_EVENT_AUTOMAP_RELEASED,
                         note_x := (note + 256 - 0x68) % 256,
                         note_y := 0 })
            else (1, some e)
        else (0, event)

/-- `lp_enable_flashing`. -/
def lp_enable_flashing (t : Transport) (lp : Option LP) : Int :=
  match lp with
  | none => LP_ERROR_LP_NULL
  | some s =>
    if !s.midi_out then LP_ERROR_UNINITIALIZED
    else writeDrain t [0xB0, 0, 0x28]

/-- `lp_disable_flashing`. -/
def lp_disable_flashing (t : Transport) (lp : Option LP) : Int :=
  match lp with
  | none => LP_ERROR_LP_NULL
  | some s =>
    if !s.midi_out then LP_ERROR_UNINITIALIZED
    else writeDrain t [0xB0, 0, 0x21]

/-- A transport on which closing the input direction fails and
everything else succeeds. -/
def failCloseInTransport : Transport := { perfectTransport with closeIn := -1 }

/-- A transport whose read yields exactly the bytes `bs` (and on
which every other call succeeds). -/
def readTransport (bs : List Nat) : Transport :=
  { perfectTransport with read := ReadResult.data bs }

/-- A transport that reports only 100 of the requested bytes
written. -/
def shortWriteTransport : Transport := { perfectTransport with write := fun _ => 100 }

/-- DISPLAY role of a buffer-control wire byte (bit 0 selects the
displayed buffer: `LP_DOUBLE_BUFFERING_DISPLAY_1 = 1`). -/
def displayRole (b : Nat) : Nat := b % 2

/-- UPDATE role of a buffer-control wire byte (bit 2 selects the
updated buffer: `LP_DOUBLE_BUFFERING_UPDATE_1 = 1<<2`). -/
def updateRole (b : Nat) : Nat := b / 4 % 2

/-- COPY bit of a buffer-control wire byte
(`LP_DOUBLE_BUFFERING_COPY = 1<<4`). -/
def copyRole (b : Nat) : Nat := b / 16 % 2

/-!
## Theorems
-/

/-- C8: `LP_KEY(row, col) = 16*row + col` is injective on
`[0,7] × [0,7]` and its value always lies in `[0,127]`. -/
theorem lp_key_injective_bounded (r c r' c' : Nat)
    (hr : r ≤ 7) (hc : c ≤ 7) (hr' : r' ≤ 7) (hc' : c' ≤ 7) :
    (LP_KEY r c = LP_KEY r' c' → r = r' ∧ c = c') ∧ LP_KEY r c ≤ 127 := by
  unfold LP_KEY
  omega

/-- Witness for C8 at `row = 2, col = 3`. -/
theorem lp_key_injective_bounded_witness :
    (LP_KEY 2 3 = LP_KEY 2 3 → 2 = 2 ∧ 3 = 3) ∧ LP_KEY 2 3 ≤ 127 :=
  lp_key_injective_bounded 2 3 2 3 (by decide) (by decide) (by decide) (by decide)

/-- C4 counterexample: `LP_COLOR_FLAG_CLEAR = 4` and
`LP_COLOR_FLAG_COPY = 8` lie inside the range 0–15, not outside it,
and with the COPY flag set the red brightness is not recoverable as
`color % 16`: `LP_COLOR 0 1 COPY = 9` and `9 % 16 = 9 ≠ 1`. -/
theorem lp_color_flags_inside_low_nibble :
    LP_COLOR_FLAG_CLEAR ≤ 15 ∧ LP_COLOR_FLAG_COPY ≤ 15 ∧
    LP_COLOR 0 1 LP_COLOR_FLAG_COPY % 16 ≠ 1 := by decide

/-- C4 amended: the flag bits occupy bits 2–3, disjoint from the red
brightness bits 0–1 and the green brightness bits 4–5, so for every
green and red in `[0,3]` and every flag combination the brightness
pair remains recoverable as `green = color / 16` and
`red = color % 4`. -/
theorem lp_color_brightness_recoverable (g r f : Nat) (hg : g ≤ 3) (hr : r ≤ 3)
    (hf : f = 0 ∨ f = LP_COLOR_FLAG_CLEAR ∨ f = LP_COLOR_FLAG_COPY ∨
          f = LP_COLOR_FLAG_CLEAR + LP_COLOR_FLAG_COPY) :
    LP_COLOR g r f / 16 = g ∧ LP_COLOR g r f % 4 = r := by
  unfold LP_COLOR LP_COLOR_FLAG_CLEAR LP_COLOR_FLAG_COPY at *
  omega

/-- Witness for the amended C4 at `green = 2, red = 3, flags = COPY`. -/
theorem lp_color_brightness_recoverable_witness :
    LP_COLOR 2 3 LP_COLOR_FLAG_COPY / 16 = 2 ∧
    LP_COLOR 2 3 LP_COLOR_FLAG_COPY % 4 = 3 :=
  lp_color_brightness_recoverable 2 3 LP_COLOR_FLAG_COPY (by decide) (by decide)
    (Or.inr (Or.inr (Or.inl rfl)))

/-- C1 counterexample: a successful `lp_open` on a session whose
`current_buff` field held 1 leaves the field at 1, not 0 — the C code
never writes `current_buff`. -/
theorem lp_open_does_not_zero_current_buff :
    (lp_open perfectTransport (some ⟨false, false, 1⟩)).1 = LP_OK ∧
    (lp_open perfectTransport (some ⟨false, false, 1⟩)).2 = some ⟨true, true, 1⟩ := by
  decide

/-- C1 amended: `lp_open` never modifies `current_buff`; after any
call (successful or not) the field holds exactly the value it held
before.  The hardware powers on displaying buffer 0, but the call does
not actively reset the field. -/
theorem lp_open_preserves_current_buff (t : Transport) (s : LP) :
    (lp_open t (some s)).2.map LP.current_buff = some s.current_buff := by
  unfold lp_open
  by_cases h : t.openReturn < 0 <;> simp [h]

/-- C2 counterexample: on a session with both directions present, when
closing the input direction fails, `lp_close` returns
`LP_ERROR_MIDI_CLOSE` without ever invoking close on the output
direction (second component `false`). -/
theorem lp_close_skips_output_on_input_failure :
    lp_close failCloseInTransport (some ⟨true, true, 0⟩) =
      (LP_ERROR_MIDI_CLOSE, false) := by decide

/-- C2 amended: if closing the input direction fails, `lp_close`
reports `CloseFailed` immediately and does not attempt to release the
output direction; the output direction is only released when the
input close did not fail. -/
theorem lp_close_input_failure_no_output_attempt (t : Transport) (s : LP)
    (hin : s.midi_in = true) (hfail : t.closeIn < 0) :
    lp_close t (some s) = (LP_ERROR_MIDI_CLOSE, false) := by
  unfold lp_close
  simp [hin, hfail]

/-- Witness for the amended C2. -/
theorem lp_close_input_failure_no_output_attempt_witness :
    lp_close failCloseInTransport (some ⟨true, false, 0⟩) =
      (LP_ERROR_MIDI_CLOSE, false) :=
  lp_close_input_failure_no_output_attempt failCloseInTransport
    ⟨true, false, 0⟩ rfl (by decide)

/-- C5 counterexample: with flags `DISPLAY_1 | UPDATE_0 | COPY` the
message written is `[0xB0, 0x00, 0x31]` — because
`LP_DOUBLE_BUFFERING_COPY = 1<<4 = 16`, the flag value is
`1 + 0 + 16 = 0x11` and the third byte `0x11 + 0x20 = 0x31`, not
`0x25`. -/
theorem lp_set_double_buffering_flags_not_0x25 :
    (lp_set_double_buffering_flags perfectTransport (some ⟨true, true, 0⟩)
      (LP_DOUBLE_BUFFERING_DISPLAY_1 ||| LP_DOUBLE_BUFFERING_UPDATE_0 |||
       LP_DOUBLE_BUFFERING_COPY)).2 = [[0xB0, 0x00, 0x31]] ∧
    (0x31 : Nat) ≠ 0x25 := by decide

/-- C5 amended: with flags `DISPLAY_1 | UPDATE_0 | COPY = 0x11`,
`lp_set_double_buffering_flags` writes exactly the 3-byte message
`[0xB0, 0x00, 0x31]`, the third byte computed as `flags + 0x20`, and
succeeds on a fully-working transport. -/
theorem lp_set_double_buffering_flags_display1_update0_copy :
    lp_set_double_buffering_flags perfectTransport (some ⟨true, true, 0⟩)
      (LP_DOUBLE_BUFFERING_DISPLAY_1 ||| LP_DOUBLE_BUFFERING_UPDATE_0 |||
       LP_DOUBLE_BUFFERING_COPY)
      = (LP_OK, [[0xB0, 0x00,
          (LP_DOUBLE_BUFFERING_DISPLAY_1 ||| LP_DOUBLE_BUFFERING_UPDATE_0 |||
           LP_DOUBLE_BUFFERING_COPY) + 0x20]]) ∧
    (LP_DOUBLE_BUFFERING_DISPLAY_1 ||| LP_DOUBLE_BUFFERING_UPDATE_0 |||
     LP_DOUBLE_BUFFERING_COPY) + 0x20 = 0x31 := by decide

/-- C10: `lp_close` on a null session returns `LP_OK`, while every
other public operation returns `LP_ERROR_LP_NULL` on a null
session. -/
theorem null_session_results (t : Transport) (note : LPNote)
    (ns : Option (List LPNote)) (flags : Nat) (e : Option LPEvent) :
    lp_close t none = (LP_OK, false) ∧
    (lp_open t none).1 = LP_ERROR_LP_NULL ∧
    lp_reset t none = LP_ERROR_LP_NULL ∧
    lp_set_note t none note = LP_ERROR_LP_NULL ∧
    (lp_set_notes t none ns).1 = LP_ERROR_LP_NULL ∧
    (lp_set_double_buffering_flags t none flags).1 = LP_ERROR_LP_NULL ∧
    (lp_swap_buffers t none).1 = LP_ERROR_LP_NULL ∧
    (lp_check_event t none e).1 = LP_ERROR_LP_NULL ∧
    lp_enable_flashing t none = LP_ERROR_LP_NULL ∧
    lp_disable_flashing t none = LP_ERROR_LP_NULL :=
  ⟨rfl, rfl, rfl, rfl, rfl, rfl, rfl, rfl, rfl, rfl⟩

/-- C3: evidence of the code bug: on a complete 3-byte read whose
status byte is `0xA0` (neither `0x90` nor `0xB0`), `lp_check_event`
returns 1 — not the benign no-event 0 its documentation and the spec
prescribe — while leaving the caller's event struct exactly as it was
(not populated). -/
theorem lp_check_event_unknown_status_returns_one :
    lp_check_event (readTransport [0xA0, 0x00, 0x7F]) (some ⟨true, true, 0⟩)
      (some ⟨0, 0, 0⟩) = (1, some ⟨0, 0, 0⟩) := by decide

/-- C6: encoding a grid note at `(row, col)` with state `LP_NOTE_ON`
(`0x90`) and nonzero velocity byte as the 3-byte message of
`lp_set_note`, then decoding that message with `lp_check_event`,
recovers exactly the original coordinates (`note_x = col`,
`note_y = row`) and the `PRESSED` event type. -/
theorem encode_note_decode_event_roundtrip (row col vel : Nat) (e : LPEvent)
    (hr : row ≤ 7) (hc : col ≤ 7) (hv : 0 < vel) (hv2 : vel < 256) :
    lp_check_event (readTransport (noteMsg ⟨LP_NOTE_ON, LP_KEY row col, vel⟩))
      (some ⟨true, true, 0⟩) (some e)
      = (1, some ⟨LP_EVENT_PRESSED, col, row⟩) := by
  have hkey : (0x10 * row + col) % 256 % 256 = 0x10 * row + col := by omega
  have hvel : vel % 256 % 256 = vel := by omega
  have hx : (0x10 * row + col - (0x10 * row + col) / 16 * 16) % 9 = col := by omega
  have hy : (0x10 * row + col) / 16 = row := by omega
  simp only [lp_check_event, readTransport, perfectTransport, noteMsg,
    LP_NOTE_ON, LP_KEY, LP_EVENT_PRESSED]
  simp [List.getD, hkey, hvel, hy, hv]
  omega

/-- Witness for C6 at `row = 4, col = 5, velocity = 127`. -/
theorem encode_note_decode_event_roundtrip_witness :
    lp_check_event (readTransport (noteMsg ⟨LP_NOTE_ON, LP_KEY 4 5, 127⟩))
      (some ⟨true, true, 0⟩) (some ⟨0, 0, 0⟩)
      = (1, some ⟨LP_EVENT_PRESSED, 5, 4⟩) :=
  encode_note_decode_event_roundtrip 4 5 127 ⟨0, 0, 0⟩ (by decide) (by decide)
    (by decide) (by decide)

/-- C7: on a session with `current_buff ∈ {0, 1}`, two consecutive
`lp_swap_buffers` calls return `current_buff` to its original value,
and the two buffer-control messages carry DISPLAY/UPDATE roles exactly
inverted between the calls, each with the COPY bit set (the roles are
read off the wire byte: DISPLAY is bit 0, UPDATE bit 2, COPY bit 4;
the `+0x20` protocol offset occupies bit 5 and does not interfere). -/
theorem lp_swap_buffers_twice (s : LP) (hout : s.midi_out = true)
    (hb : s.current_buff = 0 ∨ s.current_buff = 1) :
    ((lp_swap_buffers perfectTransport
        (lp_swap_buffers perfectTransport (some s)).2.2).2.2.map LP.current_buff
      = some s.current_buff) ∧
    ∃ b1 b2,
      (lp_swap_buffers perfectTransport (some s)).2.1 = [[0xB0, 0, b1]] ∧
      (lp_swap_buffers perfectTransport
        (lp_swap_buffers perfectTransport (some s)).2.2).2.1 = [[0xB0, 0, b2]] ∧
      displayRole b1 = updateRole b2 ∧ updateRole b1 = displayRole b2 ∧
      copyRole b1 = 1 ∧ copyRole b2 = 1 := by
  obtain ⟨mi, mo, cb⟩ := s
  dsimp only at hout hb
  subst hout
  rcases hb with h | h <;> subst h
  · exact ⟨rfl, 0x31, 0x34, rfl, rfl, by decide, by decide, by decide, by decide⟩
  · exact ⟨rfl, 0x34, 0x31, rfl, rfl, by decide, by decide, by decide, by decide⟩

/-- Witness for C7 on an open session displaying buffer 0. -/
theorem lp_swap_buffers_twice_witness :
    ((lp_swap_buffers perfectTransport
        (lp_swap_buffers perfectTransport (some ⟨true, true, 0⟩)).2.2).2.2.map
          LP.current_buff = some (0 : Int)) ∧
    ∃ b1 b2,
      (lp_swap_buffers perfectTransport (some ⟨true, true, 0⟩)).2.1
        = [[0xB0, 0, b1]] ∧
      (lp_swap_buffers perfectTransport
        (lp_swap_buffers perfectTransport (some ⟨true, true, 0⟩)).2.2).2.1
        = [[0xB0, 0, b2]] ∧
      displayRole b1 = updateRole b2 ∧ updateRole b1 = displayRole b2 ∧
      copyRole b1 = 1 ∧ copyRole b2 = 1 :=
  lp_swap_buffers_twice ⟨true, true, 0⟩ rfl (Or.inl rfl)

/-- C9: when the transport reports fewer than the 192 requested bytes
written, `lp_set_notes` returns `LP_ERROR_MIDI_WRITE` without
retrying, and the session — in particular its `current_buff` field —
is returned unchanged. -/
theorem lp_set_notes_short_write (t : Transport) (s : LP) (ns : List LPNote)
    (hout : s.midi_out = true)
    (hshort : t.write (gridMsg ns) < 3 * LP_ROWS * LP_COLS) :
    lp_set_notes t (some s) (some ns) = (LP_ERROR_MIDI_WRITE, some s) := by
  have hne : t.write (gridMsg ns) ≠ 3 * LP_ROWS * LP_COLS := Nat.ne_of_lt hshort
  unfold lp_set_notes
  simp [hout, hne]

/-- Witness for C9: a transport reporting 100 of 192 bytes written on
a full 64-note grid. -/
theorem lp_set_notes_short_write_witness :
    lp_set_notes shortWriteTransport (some ⟨true, true, 0⟩)
      (some (List.replicate 64 ⟨LP_NOTE_ON, 0, 0⟩))
      = (LP_ERROR_MIDI_WRITE, some ⟨true, true, 0⟩) :=
  lp_set_notes_short_write shortWriteTransport ⟨true, true, 0⟩
    (List.replicate 64 ⟨LP_NOTE_ON, 0, 0⟩) rfl (by decide)

end Launchpad
